import Mathlib

/-!
Shallow embedding of `src/heater_control.py` (smartspaceheater), the
single-zone thermostat control program, together with proofs of the
specification's claims about it.

Modelling conventions:
* Python floats are modelled as exact rationals (`ℚ`).
* Python `round(x, 1)` (round-half-to-even to one decimal) is `pyRound1`.
* A sensor reading is `Option ℚ`: `none` stands for a reading of `None`
  or a raised transient sensor exception (both are skipped identically by
  the monitor loop's `if temp is not None` / `except` structure).
* The actuator (`SMART_PLUG.turn_on/turn_off`) may fail; a Boolean
  `actuatorOk` flag says whether the hardware command took effect.  In the
  Python source `config.heater_on = turn_on` is executed before the plug
  command, so the state change happens regardless of the flag; the flag is
  returned so callers can observe whether an exception was raised.
* HTTP request bodies with an optional field are `Option` values;
  `data.get(key, default)` is `Option.getD`.
-/

/-- A history entry: the `{'time': …, 'temp': …}` dict appended by
`temperature_monitor` (time string, temperature rounded to one decimal). -/
abbrev Sample := String × ℚ

/-- The shared state class `HeaterConfig` from `heater_control.py`
(lines 28-35); the `threading.Lock` is not part of the data. -/
structure HeaterConfig where
  current_temp : ℚ
  target_temp : ℚ
  heater_on : Bool
  auto_mode : Bool
  temp_history : List Sample
deriving Repr, DecidableEq

/-- The single shared instance `config = HeaterConfig()` as initialised by
`HeaterConfig.__init__` (lines 30-34): 64.0°F current, 66.0°F target,
heater off, automatic mode, empty history. -/
def initConfig : HeaterConfig :=
  { current_temp := 64
    target_temp := 66
    heater_on := false
    auto_mode := true
    temp_history := [] }

/-- Round-half-to-even of a rational to the nearest integer, the rounding
Python's builtin `round` uses. -/
def roundHalfEven (q : ℚ) : ℤ :=
  let f : ℤ := ⌊q⌋
  let r : ℚ := q - f
  if r < 1/2 then f
  else if 1/2 < r then f + 1
  else if f % 2 = 0 then f else f + 1

/-- Python's `round(x, 1)`: round to one decimal place, half to even. -/
def pyRound1 (q : ℚ) : ℚ := (roundHalfEven (q * 10) : ℚ) / 10

/-- `control_heater(turn_on)` (lines 64-89).  The source first assigns
`config.heater_on = turn_on` and only then issues the smart-plug command,
which may raise a transient error; `actuatorOk` tells whether that command
succeeded.  Returns the updated state and the success flag (a `false` flag
means the plug call raised after the state was already updated). -/
def control_heater (s : HeaterConfig) (turn_on : Bool) (actuatorOk : Bool) :
    HeaterConfig × Bool :=
  ({ s with heater_on := turn_on }, actuatorOk)

/-- The history bookkeeping of `temperature_monitor` (lines 104-109):
append the sample, then `pop(0)` if the length exceeds 100. -/
def history_append (h : List Sample) (x : Sample) : List Sample :=
  let h2 := h ++ [x]
  if h2.length > 100 then h2.tail else h2

/-- One iteration of the `while True` body of `temperature_monitor`
(lines 94-122).  `reading` is the sensor result (`none` = `None` or a
raised sensor exception, handled identically: nothing is updated), `now`
the formatted timestamp, `actuatorOk` whether a plug command issued this
cycle would take effect.  On a successful reading: store
`current_temp`, append the rounded sample to the history (evicting the
oldest past 100), then in automatic mode apply the hysteresis rule via
`control_heater`.  An actuator exception occurs after all state updates
and is caught by the `except` clause, so it does not alter the resulting
state.  Returns the new state together with the list of plug commands
issued during the cycle (one per `control_heater` call). -/
def temperature_monitor_cycle (s : HeaterConfig) (reading : Option ℚ)
    (now : String) (actuatorOk : Bool) : HeaterConfig × List Bool :=
  match reading with
  | none => (s, [])
  | some temp =>
    let s1 := { s with current_temp := temp }
    let s2 := { s1 with
      temp_history := history_append s1.temp_history (now, pyRound1 temp) }
    if s2.auto_mode then
      if temp < s2.target_temp - 0.5 ∧ s2.heater_on = false then
        ((control_heater s2 true actuatorOk).1, [true])
      else if temp > s2.target_temp + 0.5 ∧ s2.heater_on = true then
        ((control_heater s2 false actuatorOk).1, [false])
      else (s2, [])
    else (s2, [])

/-- A run of the monitor loop over a finite list of cycles, each cycle
described by its sensor reading, timestamp and actuator availability. -/
def temperature_monitor_run (s : HeaterConfig)
    (inputs : List (Option ℚ × String × Bool)) : HeaterConfig :=
  inputs.foldl (fun st i => (temperature_monitor_cycle st i.1 i.2.1 i.2.2).1) s

/-- The JSON body produced by `get_status` (lines 130-140). -/
structure Status where
  current_temp : ℚ
  target_temp : ℚ
  heater_on : Bool
  auto_mode : Bool
  temp_history : List Sample
deriving Repr, DecidableEq

/-- `get_status` (lines 130-140): snapshot with temperatures rounded to
one decimal and the last 20 history entries (`temp_history[-20:]`). -/
def get_status (s : HeaterConfig) : Status :=
  { current_temp := pyRound1 s.current_temp
    target_temp := pyRound1 s.target_temp
    heater_on := s.heater_on
    auto_mode := s.auto_mode
    temp_history := s.temp_history.drop (s.temp_history.length - 20) }

/-- `set_target` (lines 142-154): the body's `target` field defaults to 22
(`data.get('target', 22)`); values in [50, 85] are committed and echoed,
anything else yields the 400 validation error and no state change. -/
def set_target (s : HeaterConfig) (body : Option ℚ) :
    HeaterConfig × Except String ℚ :=
  let target := body.getD 22
  if 50 ≤ target ∧ target ≤ 85 then
    ({ s with target_temp := target }, Except.ok target)
  else
    (s, Except.error "Temperature must be between 50-85°F")

/-- `set_mode` (lines 156-168): the body's `auto` field defaults to
`True`; `auto_mode` is set unconditionally and echoed back. -/
def set_mode (s : HeaterConfig) (body : Option Bool) : HeaterConfig × Bool :=
  let auto := body.getD true
  ({ s with auto_mode := auto }, auto)

/-- `set_heater` (lines 170-181): the body's `on` field defaults to
`False`; in manual mode the heater is commanded through `control_heater`
and success echoed (an actuator exception escapes as an error after the
state was already updated); in automatic mode the 400 mode-conflict error
is returned and nothing changes. -/
def set_heater (s : HeaterConfig) (body : Option Bool) (actuatorOk : Bool) :
    HeaterConfig × Except String Bool :=
  let turn_on := body.getD false
  if s.auto_mode = false then
    let r := control_heater s turn_on actuatorOk
    (r.1, if r.2 then Except.ok turn_on else Except.error "actuator command raised")
  else
    (s, Except.error "Cannot manually control in auto mode")

/-- Whether an API result is a success response. -/
def Except.isOkResp {α : Type} : Except String α → Bool
  | Except.ok _ => true
  | Except.error _ => false

/-- A concrete history sample used to instantiate universal theorems. -/
def sample1 : Sample := ("12:00:00", 64)

/-- Unfolding of the monitor cycle on a successful reading: the history
update never changes `auto_mode`, `target_temp` or `heater_on`, so the
hysteresis conditions read the pre-cycle values of those fields. -/
theorem temperature_monitor_cycle_some (s : HeaterConfig) (temp : ℚ)
    (now : String) (aok : Bool) :
    temperature_monitor_cycle s (some temp) now aok =
      (if s.auto_mode = true then
        if temp < s.target_temp - 0.5 ∧ s.heater_on = false then
          ({ s with
              current_temp := temp
              temp_history := history_append s.temp_history (now, pyRound1 temp)
              heater_on := true }, [true])
        else if temp > s.target_temp + 0.5 ∧ s.heater_on = true then
          ({ s with
              current_temp := temp
              temp_history := history_append s.temp_history (now, pyRound1 temp)
              heater_on := false }, [false])
        else ({ s with
              current_temp := temp
              temp_history := history_append s.temp_history (now, pyRound1 temp) }, [])
      else ({ s with
              current_temp := temp
              temp_history := history_append s.temp_history (now, pyRound1 temp) }, [])) :=
  rfl

/-- `history_append` on a list within capacity is a right-append followed
by dropping the overflow (0 or 1 elements) from the front. -/
theorem history_append_eq_drop (acc : List Sample) (x : Sample)
    (h : acc.length ≤ 100) :
    history_append acc x = (acc ++ [x]).drop (acc.length + 1 - 100) := by
  by_cases hc : acc.length + 1 > 100
  · have hcond : (acc ++ [x]).length > 100 := by
      simp only [List.length_append, List.length_singleton]; omega
    rw [history_append, if_pos hcond]
    have hd : acc.length + 1 - 100 = 1 := by omega
    rw [hd, List.drop_one]
  · have hcond : ¬(acc ++ [x]).length > 100 := by
      simp only [List.length_append, List.length_singleton]; omega
    rw [history_append, if_neg hcond]
    have hd : acc.length + 1 - 100 = 0 := by omega
    rw [hd, List.drop_zero]

/-- Folding `history_append` over any sample stream, starting within
capacity, keeps exactly the last 100 elements of the concatenation. -/
theorem foldl_history_append (xs : List Sample) : ∀ acc : List Sample,
    acc.length ≤ 100 →
    List.foldl history_append acc xs =
      (acc ++ xs).drop (acc.length + xs.length - 100) := by
  induction xs with
  | nil =>
    intro acc h
    simp only [List.foldl_nil, List.append_nil, List.length_nil, Nat.add_zero,
      Nat.sub_eq_zero_of_le h, List.drop_zero]
  | cons x xs ih =>
    intro acc h
    rw [List.foldl_cons, history_append_eq_drop acc x h]
    have hd : acc.length + 1 - 100 ≤ (acc ++ [x]).length := by
      simp only [List.length_append, List.length_singleton]; omega
    have hlen2 : ((acc ++ [x]).drop (acc.length + 1 - 100)).length ≤ 100 := by
      simp only [List.length_drop, List.length_append, List.length_singleton]
      omega
    rw [ih _ hlen2, ← List.drop_append_of_le_length hd, List.drop_drop]
    have hidx : (acc.length + 1 - 100) +
        (((acc ++ [x]).drop (acc.length + 1 - 100)).length + xs.length - 100) =
        acc.length + (x :: xs).length - 100 := by
      simp only [List.length_drop, List.length_append, List.length_singleton,
        List.length_cons, List.length_nil]
      omega
    rw [hidx, ← List.append_cons]

/-- C1: in automatic mode a successful reading is handled by exactly the
hysteresis rule: strictly below `target - 0.5` with the heater off
commands the heater on (one `True` plug command, `heater_on` becomes
true); strictly above `target + 0.5` with the heater on commands it off;
in every other case no command is issued and `heater_on` is unchanged. -/
theorem hysteresis_c1 (s : HeaterConfig) (temp : ℚ) (now : String)
    (aok : Bool) (hauto : s.auto_mode = true) :
    (temp < s.target_temp - 0.5 ∧ s.heater_on = false →
      (temperature_monitor_cycle s (some temp) now aok).1.heater_on = true ∧
      (temperature_monitor_cycle s (some temp) now aok).2 = [true]) ∧
    (temp > s.target_temp + 0.5 ∧ s.heater_on = true →
      (temperature_monitor_cycle s (some temp) now aok).1.heater_on = false ∧
      (temperature_monitor_cycle s (some temp) now aok).2 = [false]) ∧
    (¬(temp < s.target_temp - 0.5 ∧ s.heater_on = false) →
     ¬(temp > s.target_temp + 0.5 ∧ s.heater_on = true) →
      (temperature_monitor_cycle s (some temp) now aok).1.heater_on =
        s.heater_on ∧
      (temperature_monitor_cycle s (some temp) now aok).2 = []) := by
  rw [temperature_monitor_cycle_some, if_pos hauto]
  refine ⟨fun h => ?_, fun h => ?_, fun h1 h2 => ?_⟩
  · rw [if_pos h]
    exact ⟨rfl, rfl⟩
  · have hne : ¬(temp < s.target_temp - 0.5 ∧ s.heater_on = false) := by
      rintro ⟨-, hf⟩
      rw [h.2] at hf
      cases hf
    rw [if_neg hne, if_pos h]
    exact ⟨rfl, rfl⟩
  · rw [if_neg h1, if_neg h2]
    exact ⟨rfl, rfl⟩

/-- C1 witness: with the default state (target 66.0, heater off, auto
mode), a reading of 65.4 < 65.5 commands the heater on. -/
theorem hysteresis_c1_witness :
    initConfig.auto_mode = true ∧
    ((654/10 : ℚ) < initConfig.target_temp - 0.5 ∧
      initConfig.heater_on = false) ∧
    (temperature_monitor_cycle initConfig (some (654/10)) "12:00:00"
        true).1.heater_on = true ∧
    (temperature_monitor_cycle initConfig (some (654/10)) "12:00:00"
        true).2 = [true] :=
  ⟨rfl, ⟨by norm_num [initConfig], rfl⟩,
    ((hysteresis_c1 initConfig (654/10) "12:00:00" true rfl).1
      ⟨by norm_num [initConfig], rfl⟩).1,
    ((hysteresis_c1 initConfig (654/10) "12:00:00" true rfl).1
      ⟨by norm_num [initConfig], rfl⟩).2⟩

/-- C4: a cycle whose sensor read fails (raises or yields `None`) leaves
the whole state unchanged, issues no actuator command, and the rest of
the run proceeds exactly as if the failed cycle had not happened. -/
theorem sensor_failure_c4 (s : HeaterConfig) (now : String) (aok : Bool)
    (rest : List (Option ℚ × String × Bool)) :
    temperature_monitor_cycle s none now aok = (s, []) ∧
    temperature_monitor_run s ((none, now, aok) :: rest) =
      temperature_monitor_run s rest :=
  ⟨rfl, rfl⟩

/-- C6 counterexample: starting from the default state (heater off), a
`control_heater True` call whose plug command fails (flag `false`) still
records `heater_on = true` — the claim that a failed command is never
marked in the state is false. -/
theorem control_heater_c6_counterexample :
    (control_heater initConfig true false).2 = false ∧
    (control_heater initConfig true false).1.heater_on = true ∧
    initConfig.heater_on = false :=
  ⟨rfl, rfl, rfl⟩

/-- C6 amended: `control_heater` assigns `heater_on` before issuing the
plug command, so the state records the commanded value regardless of
whether the command took effect; the monitor cycle's resulting state is
likewise identical whether or not the actuator call succeeds (the raised
error is caught and the loop continues). -/
theorem control_heater_c6_amended (s : HeaterConfig) (b aok : Bool)
    (reading : Option ℚ) (now : String) :
    (control_heater s b aok).1 = { s with heater_on := b } ∧
    (control_heater s b aok).2 = aok ∧
    (temperature_monitor_cycle s reading now aok).1 =
      (temperature_monitor_cycle s reading now true).1 := by
  refine ⟨rfl, rfl, ?_⟩
  cases reading with
  | none => rfl
  | some temp => rw [temperature_monitor_cycle_some,
      temperature_monitor_cycle_some]

/-- C8: `set_mode` always succeeds, sets `auto_mode` to the requested
boolean and echoes it, and leaves every other field unchanged. -/
theorem set_mode_c8 (s : HeaterConfig) (b : Bool) :
    (set_mode s (some b)).1.auto_mode = b ∧
    (set_mode s (some b)).2 = b ∧
    (set_mode s (some b)).1.heater_on = s.heater_on ∧
    (set_mode s (some b)).1.current_temp = s.current_temp ∧
    (set_mode s (some b)).1.target_temp = s.target_temp ∧
    (set_mode s (some b)).1.temp_history = s.temp_history :=
  ⟨rfl, rfl, rfl, rfl, rfl, rfl⟩

/-- C10: a request body without a `target` field defaults to 22, which
fails the 50-85 range check, so the request is always rejected with the
validation error and the state is returned unchanged. -/
theorem set_target_missing_c10 (s : HeaterConfig) :
    set_target s none =
      (s, Except.error "Temperature must be between 50-85°F") ∧
    (none : Option ℚ).getD 22 = 22 ∧
    ¬(50 ≤ (22 : ℚ) ∧ (22 : ℚ) ≤ 85) := by
  refine ⟨?_, rfl, by norm_num⟩
  rw [set_target, Option.getD_none, if_neg (by norm_num)]


/-- C2: `set_target` succeeds exactly on values in [50, 85]; on success
the setpoint becomes exactly the requested value, the value is echoed,
and a subsequent `get_status` reports it rounded to one decimal; on
failure the state is unchanged and the validation error is returned. -/
theorem set_target_c2 (s : HeaterConfig) (v : ℚ) :
    ((set_target s (some v)).2.isOkResp = true ↔ 50 ≤ v ∧ v ≤ 85) ∧
    (50 ≤ v ∧ v ≤ 85 →
      set_target s (some v) =
        ({ s with target_temp := v }, Except.ok v) ∧
      (get_status (set_target s (some v)).1).target_temp = pyRound1 v) ∧
    (¬(50 ≤ v ∧ v ≤ 85) →
      set_target s (some v) =
        (s, Except.error "Temperature must be between 50-85°F")) := by
  by_cases h : 50 ≤ v ∧ v ≤ 85
  · refine ⟨?_, fun _ => ⟨?_, ?_⟩, fun hc => absurd h hc⟩
    · simp [set_target, h, Except.isOkResp]
    · simp [set_target, h]
    · simp [set_target, h, get_status]
  · refine ⟨?_, fun hc => absurd hc h, fun _ => ?_⟩
    · simp [set_target, h, Except.isOkResp]
    · simp [set_target, h]

/-- C2 witness: 70 is accepted and committed; 49.9 is rejected with the
state unchanged. -/
theorem set_target_c2_witness :
    ((50 : ℚ) ≤ 70 ∧ (70 : ℚ) ≤ 85) ∧
    set_target initConfig (some 70) =
      ({ initConfig with target_temp := 70 }, Except.ok 70) ∧
    ¬((50 : ℚ) ≤ 499/10 ∧ (499/10 : ℚ) ≤ 85) ∧
    set_target initConfig (some (499/10)) =
      (initConfig, Except.error "Temperature must be between 50-85°F") :=
  ⟨by norm_num,
    ((set_target_c2 initConfig 70).2.1 (by norm_num)).1,
    by norm_num,
    (set_target_c2 initConfig (499/10)).2.2 (by norm_num)⟩

/-- C5: `set_heater` succeeds exactly when `auto_mode` is false; in
manual mode it commands the actuator and sets `heater_on` to the request;
in automatic mode it returns the mode-conflict error and changes
nothing. -/
theorem set_heater_c5 (s : HeaterConfig) (b : Bool) :
    ((set_heater s (some b) true).2.isOkResp = true ↔
      s.auto_mode = false) ∧
    (s.auto_mode = false →
      set_heater s (some b) true =
        ({ s with heater_on := b }, Except.ok b)) ∧
    (s.auto_mode = true →
      set_heater s (some b) true =
        (s, Except.error "Cannot manually control in auto mode")) := by
  cases hm : s.auto_mode <;>
    simp [set_heater, control_heater, hm, Except.isOkResp]

/-- C5 witness: in manual mode `set_heater true` turns the heater on; in
the default automatic mode it is rejected and the state is unchanged. -/
theorem set_heater_c5_witness :
    set_heater { initConfig with auto_mode := false } (some true) true =
      ({ initConfig with auto_mode := false, heater_on := true },
        Except.ok true) ∧
    set_heater initConfig (some true) true =
      (initConfig, Except.error "Cannot manually control in auto mode") :=
  ⟨(set_heater_c5 { initConfig with auto_mode := false } true).2.1 rfl,
    (set_heater_c5 initConfig true).2.2 rfl⟩

/-- C7: `get_status` always returns the snapshot: both temperatures
rounded to one decimal, the booleans verbatim, and a suffix of the
history of length at most 20 (exactly 20 once at least 20 samples
exist), without touching the state. -/
theorem get_status_c7 (s : HeaterConfig) :
    (get_status s).current_temp = pyRound1 s.current_temp ∧
    (get_status s).target_temp = pyRound1 s.target_temp ∧
    (get_status s).heater_on = s.heater_on ∧
    (get_status s).auto_mode = s.auto_mode ∧
    (get_status s).temp_history.length ≤ 20 ∧
    (get_status s).temp_history <:+ s.temp_history ∧
    (20 ≤ s.temp_history.length →
      (get_status s).temp_history.length = 20) := by
  refine ⟨rfl, rfl, rfl, rfl, ?_, ?_, fun h => ?_⟩
  · show (s.temp_history.drop (s.temp_history.length - 20)).length ≤ 20
    simp only [List.length_drop]
    omega
  · show s.temp_history.drop (s.temp_history.length - 20) <:+ s.temp_history
    exact List.drop_suffix _ _
  · show (s.temp_history.drop (s.temp_history.length - 20)).length = 20
    simp only [List.length_drop]
    omega

/-- C7 witness: with 25 stored samples the status history has exactly the
last 20. -/
theorem get_status_c7_witness :
    20 ≤ (List.replicate 25 sample1).length ∧
    (get_status { initConfig with
        temp_history := List.replicate 25 sample1 }).temp_history.length =
      20 :=
  ⟨by simp,
    (get_status_c7 { initConfig with
        temp_history := List.replicate 25 sample1 }).2.2.2.2.2.2 (by simp)⟩

/-- A run whose every cycle has a failed sensor read leaves the state
untouched. -/
theorem monitor_run_all_none (inputs : List (Option ℚ × String × Bool)) :
    ∀ s : HeaterConfig, (∀ i ∈ inputs, i.1 = none) →
      temperature_monitor_run s inputs = s := by
  induction inputs with
  | nil => intro s _; rfl
  | cons i rest ih =>
    intro s hall
    obtain ⟨r, now, aok⟩ := i
    have hr : r = none := hall _ (List.mem_cons_self _ _)
    subst hr
    have hstep : temperature_monitor_run s ((none, now, aok) :: rest) =
        temperature_monitor_run s rest := rfl
    rw [hstep]
    exact ih s fun j hj => hall j (List.mem_cons_of_mem _ hj)

/-- C9 counterexample: the state is created with the concrete default
reading 64.0 already stored, and `get_status` reports it before any
sensor cycle has run — `current_temperature` is not absent before the
first read. -/
theorem initial_default_c9_counterexample :
    initConfig.current_temp = 64 ∧
    (get_status initConfig).current_temp = 64 :=
  ⟨rfl, by norm_num [get_status, initConfig, pyRound1, roundHalfEven]⟩

/-- C9 amended: `current_temperature` holds the concrete default 64.0°F
from startup, and until the first successful reading (i.e. after any run
of failed-sensor cycles) `get_status` reports that default as the
current temperature. -/
theorem initial_default_c9_amended
    (inputs : List (Option ℚ × String × Bool))
    (hall : ∀ i ∈ inputs, i.1 = none) :
    temperature_monitor_run initConfig inputs = initConfig ∧
    initConfig.current_temp = 64 ∧
    (get_status (temperature_monitor_run initConfig inputs)).current_temp
      = 64 := by
  have hrun := monitor_run_all_none inputs initConfig hall
  refine ⟨hrun, rfl, ?_⟩
  rw [hrun]
  norm_num [get_status, initConfig, pyRound1, roundHalfEven]

/-- C9 witness: after one failed-sensor cycle the reported current
temperature is still the startup default 64.0. -/
theorem initial_default_c9_witness :
    (∀ i ∈ [((none : Option ℚ), "00:00:05", true)], i.1 = none) ∧
    (get_status (temperature_monitor_run initConfig
        [((none : Option ℚ), "00:00:05", true)])).current_temp = 64 :=
  ⟨by simp,
    (initial_default_c9_amended [((none : Option ℚ), "00:00:05", true)]
      (by simp)).2.2⟩

/-- C3: the history is a 100-bounded FIFO: appending within capacity
stays within capacity, appending at capacity evicts exactly the oldest
entry, and any 150 successful cycles starting from an empty history
leave exactly the most recent 100 samples in oldest-first order. -/
theorem history_c3 (h : List Sample) (x : Sample) (xs : List Sample) :
    (h.length ≤ 100 → (history_append h x).length ≤ 100) ∧
    (h.length = 100 → history_append h x = h.tail ++ [x]) ∧
    (xs.length = 150 →
      List.foldl history_append [] xs = xs.drop 50) := by
  refine ⟨fun hle => ?_, fun h100 => ?_, fun h150 => ?_⟩
  · rw [history_append_eq_drop h x hle]
    simp only [List.length_drop, List.length_append, List.length_singleton]
    omega
  · have hne : h ≠ [] := by
      intro e
      rw [e] at h100
      simp at h100
    rw [history_append_eq_drop h x (le_of_eq h100), h100]
    show (h ++ [x]).drop 1 = h.tail ++ [x]
    rw [List.drop_one, List.tail_append_singleton_of_ne_nil hne]
  · rw [foldl_history_append xs [] (by simp), List.nil_append]
    simp only [List.length_nil, Nat.zero_add, h150]

/-- C3 witness: with 100 stored samples one more append evicts the
oldest; folding 150 samples from empty keeps the last 100. -/
theorem history_c3_witness :
    (List.replicate 100 sample1).length ≤ 100 ∧
    (history_append (List.replicate 100 sample1) sample1).length ≤ 100 ∧
    (List.replicate 100 sample1).length = 100 ∧
    history_append (List.replicate 100 sample1) sample1 =
      (List.replicate 100 sample1).tail ++ [sample1] ∧
    (List.replicate 150 sample1).length = 150 ∧
    List.foldl history_append [] (List.replicate 150 sample1) =
      (List.replicate 150 sample1).drop 50 :=
  ⟨by simp,
    (history_c3 (List.replicate 100 sample1) sample1
      (List.replicate 150 sample1)).1 (by simp),
    by simp,
    (history_c3 (List.replicate 100 sample1) sample1
      (List.replicate 150 sample1)).2.1 (by simp),
    by simp,
    (history_c3 (List.replicate 100 sample1) sample1
      (List.replicate 150 sample1)).2.2 (by simp)⟩
